import Mathlib

/-!
Shallow embedding of `DetectMissingDatasets.py` (ucscXena /
Xena-GDC-Detect_Missing_Datasets): the reconciliation engine that classifies
GDC file records into Xena dataset shapes and diffs them against the Xena
hub's sample inventories.

Python dictionaries with optional fields become structures with `Option`
fields; Python exceptions (KeyError / IndexError / AttributeError) become an
`Except PyErr` result; Python `list(set(...))` becomes a deterministic
first-occurrence deduplication (set contents are what matter; Python's
iteration order is unspecified); the two external HTTP collaborators (the GDC
file listing and the Xena hub sample query) become explicit parameters.
-/

namespace DMD

/-- Python exceptions that the modelled code can raise. -/
inductive PyErr where
  | keyError (key : String)
  | indexError
  | attributeError (attr : String)
deriving DecidableEq

/-- Python class `File`: metadata storage for one GDC file (constructor-argument
order `file_id, data_type, workflow_type, platform, experimental_strategy,
submitter_id, project_id` as in the source). -/
structure File where
  file_id : String
  data_type : String
  workflow_type : String
  platform : String
  experimental_strategy : String
  submitter_id : String
  project_id : String
deriving DecidableEq

/-- Python class `Data_set`: one potential dataset of a project, holding its four
matching requirements and the files classified into it. -/
structure Data_set where
  name : String
  data_type : String
  workflow_type : String
  platform : String
  experimental_strategy : String
  project_id : String
  files : List File
deriving DecidableEq

/-- Constant `UNUSED_DATA_TYPE`. -/
def UNUSED_DATA_TYPE : List String :=
  ["Slide Image", "Biospecimen Supplement", "Clinical Supplement",
   "Masked Intensities", "Pathology Report",
   "Isoform Expression Quantification", "Tissue Microarray Image"]

/-- Constant `UNUSED_EXPERIMENTAL_STRATEGY`. -/
def UNUSED_EXPERIMENTAL_STRATEGY : List String := ["scRNA-Seq"]

/-- Constant `TUMOR_DATA_TYPE`. -/
def TUMOR_DATA_TYPE : List String :=
  ["Copy Number Segment", "Masked Copy Number Segment",
   "Gene Level Copy Number", "Masked Somatic Mutation",
   "Allele-specific Copy Number Segment"]

/-- Python's `str.lower`. -/
def pyLower (s : String) : String := String.mk (s.data.map Char.toLower)

/-- The `match_count` accumulated in the loop body of `match_to_data_set`:
one point per field whose dataset requirement is the empty-string wildcard or
equals the file's field after `.lower()`. -/
def match_count (data_set : Data_set) (file : File) : Nat :=
  (if data_set.data_type = "" ∨ pyLower data_set.data_type = pyLower file.data_type
    then 1 else 0) +
  (if data_set.workflow_type = "" ∨ pyLower data_set.workflow_type = pyLower file.workflow_type
    then 1 else 0) +
  (if data_set.platform = "" ∨ pyLower data_set.platform = pyLower file.platform
    then 1 else 0) +
  (if data_set.experimental_strategy = "" ∨
      pyLower data_set.experimental_strategy = pyLower file.experimental_strategy
    then 1 else 0)

/-- Appending a file to a dataset's `files` (the `data_set.files.append(file)`
of the match branch). -/
def add_file (data_set : Data_set) (file : File) : Data_set :=
  { data_set with files := data_set.files ++ [file] }

/-- Function `match_to_data_set`: walk `data_set_list` in order; the first dataset
whose four requirements all match absorbs the file; otherwise the file is
appended to `missing_file_list`.  The Python function mutates the dataset
objects and returns only `missing_file_list`; the model returns the updated
dataset list together with it. -/
def match_to_data_set (missing_file_list : List File) (data_set_list : List Data_set)
    (file : File) : List Data_set × List File :=
  match data_set_list with
  | [] => ([], missing_file_list ++ [file])
  | data_set :: rest =>
    if match_count data_set file = 4 then
      (add_file data_set file :: rest, missing_file_list)
    else
      let r := match_to_data_set missing_file_list rest file
      (data_set :: r.1, r.2)

/-- Method `File.__eq__`: equality over the four metadata fields only. -/
def fileMetaEq (a b : File) : Bool :=
  a.data_type = b.data_type && a.workflow_type = b.workflow_type &&
  a.platform = b.platform && a.experimental_strategy = b.experimental_strategy

/-- Deterministic model of Python `list(set(l))` under an equality test
(the tests used are equivalences: string equality and `File.__eq__`): keep
the first occurrence of every equivalence class, in first-occurrence
order. -/
def pySetList (eqv : α → α → Bool) : List α → List α
  | [] => []
  | x :: rest => x :: (pySetList eqv rest).filter (fun y => !eqv x y)

/-- Python `list(set(missing_file_list))` over `File` objects: dedup by
`File.__eq__` / `File.__hash__`, i.e. by the four metadata fields. -/
def pyListSet (l : List File) : List File := pySetList fileMetaEq l

/-- Python `list(set(l))` over strings. -/
def pyListSetStr (l : List String) : List String := pySetList (fun a b => a = b) l

/-- The signature string built for one unique file inside
`remove_missing_duplicates`: the four metadata fields, empty ones dropped,
joined with `/`. -/
def file_signature (f : File) : String :=
  String.intercalate "/"
    (([f.data_type, f.workflow_type, f.platform, f.experimental_strategy]).filter
      (fun s => s.length > 0))

/-- Function `remove_missing_duplicates`: dedup the unmatched files by metadata
equality, then replace each survivor by its `/`-joined signature. -/
def remove_missing_duplicates (missing_file_list : List File) : List String :=
  (pyListSet missing_file_list).map file_signature

/-- What `remove_missing_duplicates` does when handed its own output (a list
of strings): `list(set(...))` succeeds, but the first loop iteration
evaluates `unique_list[i].data_type` on a `str`, raising `AttributeError`;
only the empty list (no iterations) survives. -/
def remove_missing_duplicates_on_strings (l : List String) : Except PyErr (List String) :=
  match pyListSetStr l with
  | [] => Except.ok []
  | _ :: _ => Except.error (PyErr.attributeError "data_type")

/-- Function `prune_data_sets`: keep only datasets with at least one file. -/
def prune_data_sets (data_set_list : List Data_set) : List Data_set :=
  data_set_list.filter (fun data_set => data_set.files.length > 0)

/-- Function `compare_datasets`: an empty Xena sample list means the dataset is
missing from the hub; its files are appended to `missing_file_list`. -/
def compare_datasets (samples : List String) (missing_file_list : List File)
    (data_set : Data_set) : Bool × List File :=
  if samples.length = 0 then (true, missing_file_list ++ data_set.files)
  else (false, missing_file_list)

/-- The `submitter_id_list` built at the top of `compare_samples`: for
project `BEATAML1.0-COHORT` each member's submitter id loses its final
character (`submitter_id[:-1]`); otherwise ids are taken as they are. -/
def source_submitter_ids (data_set : Data_set) (project_id : String) : List String :=
  if project_id = "BEATAML1.0-COHORT" then
    data_set.files.map (fun file => file.submitter_id.dropRight 1)
  else
    data_set.files.map (fun file => file.submitter_id)

/-- A dataset with every member's submitter id pre-stripped of its final
character. -/
def strip_last_ids (data_set : Data_set) : Data_set :=
  { data_set with
    files := data_set.files.map (fun file => { file with submitter_id := file.submitter_id.dropRight 1 }) }

/-- Function `compare_samples`: compare the distinct submitter ids of the dataset's
files against the distinct Xena sample ids.  First component: the returned
triple (count-mismatch flag, `missing_ids` = GDC-only ids, and
`missing_ids_GDC_dtype` = Xena-only ids); second component: whether the
`ERROR: Xena dataset has more samples than GDC.` line was printed. -/
def compare_samples (samples : List String) (data_set : Data_set)
    (project_id : String) : (Bool × List String × List String) × Bool :=
  let submitter_id_list := pyListSetStr (source_submitter_ids data_set project_id)
  let samples_set := pyListSetStr samples
  let missing_ids := submitter_id_list.filter (fun s => !samples_set.contains s)
  let missing_ids_GDC_dtype := samples_set.filter (fun s => !submitter_id_list.contains s)
  if samples_set.length = submitter_id_list.length then
    ((false, missing_ids, missing_ids_GDC_dtype), false)
  else if samples_set.length < submitter_id_list.length then
    ((true, missing_ids, missing_ids_GDC_dtype), false)
  else
    ((true, missing_ids, missing_ids_GDC_dtype), true)

/-- One entry of a raw file record's `cases[i]["samples"]` list. -/
structure RawSample where
  submitter_id : Option String
  tissue_type : Option String
deriving DecidableEq

/-- One entry of a raw file record's `cases` list. -/
structure RawCase where
  submitter_id : Option String
  samples : Option (List RawSample)
deriving DecidableEq

/-- The `analysis` sub-dictionary of a raw file record. -/
structure RawAnalysis where
  workflow_type : Option String
deriving DecidableEq

/-- One raw file record as returned by the GDC `files` endpoint: a JSON
dictionary in which every field may be absent. -/
structure RawFile where
  file_id : Option String
  data_type : Option String
  analysis : Option RawAnalysis
  platform : Option String
  experimental_strategy : Option String
  cases : Option (List RawCase)
deriving DecidableEq

/-- Python `d[key]`: `KeyError` when the field is absent. -/
def pyGet (field : Option α) (key : String) : Except PyErr α :=
  match field with
  | some v => Except.ok v
  | none => Except.error (PyErr.keyError key)

/-- Python `l[i]`: `IndexError` when out of range. -/
def pyIndex (l : List α) (i : Nat) : Except PyErr α :=
  match l.get? i with
  | some v => Except.ok v
  | none => Except.error PyErr.indexError

/-- The tumor-scan loop of the general (non-CPTAC-3) branch of
`file_metadata`: the first sample whose `tissue_type` is `Tumor` supplies its
own `submitter_id`; if the loop ends without a hit, `submitter_id` keeps its
initial value, the empty string. -/
def tumor_scan_samples : List RawSample → Except PyErr String
  | [] => Except.ok ""
  | s :: rest =>
    match s.tissue_type with
    | none => Except.error (PyErr.keyError "tissue_type")
    | some tt =>
      if tt = "Tumor" then pyGet s.submitter_id "submitter_id"
      else tumor_scan_samples rest

/-- The tumor-scan loop of the CPTAC-3 branch of `file_metadata`: on the
first `Tumor` sample the *case-level* `submitter_id` (`cases[0]`) is used. -/
def tumor_scan_cptac (case0 : RawCase) : List RawSample → Except PyErr String
  | [] => Except.ok ""
  | s :: rest =>
    match s.tissue_type with
    | none => Except.error (PyErr.keyError "tissue_type")
    | some tt =>
      if tt = "Tumor" then pyGet case0.submitter_id "submitter_id"
      else tumor_scan_cptac case0 rest

/-- The exclusion filter shared by both branches of `file_metadata`: the
record is kept only when its data type and experimental strategy are not in
the unused sets and it is not a `DNAcopy` copy-number-segment file. -/
def keeps_record (data_type workflow_type experimental_strategy : String) : Prop :=
  ¬ data_type ∈ UNUSED_DATA_TYPE ∧
  ¬ (data_type = "Copy Number Segment" ∧ workflow_type = "DNAcopy") ∧
  ¬ experimental_strategy ∈ UNUSED_EXPERIMENTAL_STRATEGY

instance (data_type workflow_type experimental_strategy : String) :
    Decidable (keeps_record data_type workflow_type experimental_strategy) := by
  unfold keeps_record; infer_instance

/-- Sample-identifier resolution inside the `file_metadata` loop body, given
the already-extracted metadata fields: the CPTAC-3 branch or the general
branch, each guarded by the exclusion filter; an excluded record leaves
`submitter_id` at its initial empty string. -/
def resolve_submitter_id (file : RawFile) (project_id : String)
    (data_type workflow_type experimental_strategy : String) : Except PyErr String :=
  if project_id = "CPTAC-3" then
    if keeps_record data_type workflow_type experimental_strategy then do
      let cases ← pyGet file.cases "cases"
      let case0 ← pyIndex cases 0
      let sample_info ← pyGet case0.samples "samples"
      if data_type ∈ TUMOR_DATA_TYPE then
        tumor_scan_cptac case0 sample_info
      else
        pyGet case0.submitter_id "submitter_id"
    else Except.ok ""
  else
    if keeps_record data_type workflow_type experimental_strategy then do
      let cases ← pyGet file.cases "cases"
      let case0 ← pyIndex cases 0
      let sample_info ← pyGet case0.samples "samples"
      if data_type ∈ TUMOR_DATA_TYPE then
        tumor_scan_samples sample_info
      else do
        let sample0 ← pyIndex sample_info 0
        pyGet sample0.submitter_id "submitter_id"
    else Except.ok ""

/-- The `workflow_type` extraction of the `file_metadata` loop body:
`file["analysis"]["workflow_type"]` when `analysis` is present, otherwise the
initial empty string. -/
def extract_workflow_type (file : RawFile) : Except PyErr String :=
  match file.analysis with
  | some a => pyGet a.workflow_type "workflow_type"
  | none => Except.ok ""

/-- One iteration of the `file_metadata` loop: extract the metadata fields
(defaulting absent ones to the empty string, but `file["file_id"]` is read
unconditionally), resolve the submitter id, and when it is non-empty build a
`File` carrying `data_set_list[0].project_id` and classify it. -/
def file_metadata_step (file : RawFile) (data_set_list : List Data_set)
    (project_id : String) (missing_file_list : List File) :
    Except PyErr (List Data_set × List File) :=
  match file.file_id with
  | none => Except.error (PyErr.keyError "file_id")
  | some file_id =>
    match extract_workflow_type file with
    | Except.error e => Except.error e
    | Except.ok workflow_type =>
      let data_type := file.data_type.getD ""
      let platform := file.platform.getD ""
      let experimental_strategy := file.experimental_strategy.getD ""
      match resolve_submitter_id file project_id data_type workflow_type
          experimental_strategy with
      | Except.error e => Except.error e
      | Except.ok submitter_id =>
        if submitter_id.length > 0 then
          match data_set_list with
          | [] => Except.error PyErr.indexError
          | data_set0 :: _ =>
            Except.ok (match_to_data_set missing_file_list data_set_list
              { file_id := file_id, data_type := data_type,
                workflow_type := workflow_type, platform := platform,
                experimental_strategy := experimental_strategy,
                submitter_id := submitter_id, project_id := data_set0.project_id })
        else Except.ok (data_set_list, missing_file_list)

/-- Function `file_metadata`: fold the loop body over the raw file list.  The Python
function mutates `data_set_list` and returns `missing_file_list`; the model
returns both. -/
def file_metadata (file_list : List RawFile) (data_set_list : List Data_set)
    (project_id : String) (missing_file_list : List File) :
    Except PyErr (List Data_set × List File) :=
  match file_list with
  | [] => Except.ok (data_set_list, missing_file_list)
  | file :: rest =>
    match file_metadata_step file data_set_list project_id missing_file_list with
    | Except.error e => Except.error e
    | Except.ok r => file_metadata rest r.1 project_id r.2

/-- One value of the `_XENA_GDC_DTYPE` catalog: the four requirements, each
possibly absent (the dictionary keys `data_type`, `analysis.workflow_type`,
`platform`, `experimental_strategy`). -/
structure DtypeSpec where
  data_type : Option String
  workflow_type : Option String
  platform : Option String
  experimental_strategy : Option String
deriving DecidableEq

/-- Function `create_data_set`: one `Data_set` per catalog entry, absent requirements
defaulting to the empty-string wildcard, `files` starting empty.  The
catalog `_XENA_GDC_DTYPE` lives in the external `xena_dataset` module, so it
is a parameter here. -/
def create_data_set (catalog : List (String × DtypeSpec)) (project_id : String) :
    List Data_set :=
  catalog.map (fun kv =>
    { name := kv.1,
      data_type := kv.2.data_type.getD "",
      workflow_type := kv.2.workflow_type.getD "",
      platform := kv.2.platform.getD "",
      experimental_strategy := kv.2.experimental_strategy.getD "",
      project_id := project_id,
      files := [] })

/-- A value stored in the `missing_ids` dictionary of `test_project`:
initially `None`, then a list of submitter ids per dataset name, and for the
`not_in_GDC` key the whole `missing_ids_GDC` dictionary. -/
inductive IdsVal where
  | pynone
  | idList (ids : List String)
  | dict (m : List (String × IdsVal))

/-- Python dictionary assignment `d[key] = v` on an association list: replace
the value at the first occurrence of `key`, or append a new entry. -/
def dictSet (m : List (String × α)) (key : String) (v : α) : List (String × α) :=
  match m with
  | [] => [(key, v)]
  | kv :: rest =>
    if kv.1 = key then (key, v) :: rest
    else kv :: dictSet rest key v

/-- Python dictionary lookup `d[key]` as an `Option` (first occurrence). -/
def dictGet (m : List (String × α)) (key : String) : Option α :=
  match m with
  | [] => none
  | kv :: rest => if kv.1 = key then some kv.2 else dictGet rest key

/-- Function `xena_dataset`: the dataset id `projectId.name.tsv` is sent to the hub;
the hub's reply is the external collaborator, modelled as the function
`hub`. -/
def xena_dataset (hub : String → List String) (data_set : Data_set) : List String :=
  hub (String.intercalate "." [data_set.project_id, data_set.name, "tsv"])

/-- The mutable state of the per-dataset loop inside `test_project`. -/
structure LoopState where
  missing_file_list : List File
  missing_data_sets : List Data_set
  data_sets_missing_sample : List Data_set
  missing_ids : List (String × IdsVal)
  missing_ids_GDC : List (String × IdsVal)

/-- One iteration of the dataset loop of `test_project`: query the hub,
run `compare_datasets` and `compare_samples`, extend the two report lists
when flagged, and record both id diffs under the dataset's name. -/
def diff_step (hub : String → List String) (project_id : String)
    (st : LoopState) (data_set : Data_set) : LoopState :=
  let samples := xena_dataset hub data_set
  let cd := compare_datasets samples st.missing_file_list data_set
  let missing_data_sets :=
    if cd.1 then st.missing_data_sets ++ [data_set] else st.missing_data_sets
  let cs := (compare_samples samples data_set project_id).1
  let data_sets_missing_sample :=
    if cs.1 then st.data_sets_missing_sample ++ [data_set]
    else st.data_sets_missing_sample
  { missing_file_list := cd.2,
    missing_data_sets := missing_data_sets,
    data_sets_missing_sample := data_sets_missing_sample,
    missing_ids := dictSet st.missing_ids data_set.name (IdsVal.idList cs.2.1),
    missing_ids_GDC := dictSet st.missing_ids_GDC data_set.name (IdsVal.idList cs.2.2) }

/-- The dataset loop of `test_project`, folded over the pruned dataset
list. -/
def diff_loop (hub : String → List String) (project_id : String)
    (data_set_list : List Data_set) (st : LoopState) : LoopState :=
  match data_set_list with
  | [] => st
  | data_set :: rest => diff_loop hub project_id rest (diff_step hub project_id st data_set)

/-- The initial loop state of `test_project`: the unmatched files from
classification, empty report lists, and the two id dictionaries seeded with
`None` under every pruned dataset's name. -/
def init_loop_state (data_set_list : List Data_set) (missing_file_list : List File) :
    LoopState :=
  { missing_file_list := missing_file_list,
    missing_data_sets := [],
    data_sets_missing_sample := [],
    missing_ids := data_set_list.map (fun data_set => (data_set.name, IdsVal.pynone)),
    missing_ids_GDC := data_set_list.map (fun data_set => (data_set.name, IdsVal.pynone)) }

/-- The per-project data handed to the report stage by `test_project`:
the finalized `missing_ids` dictionary (logged to
`missing_submitter_ids.json`), the two name lists and the deduplicated
signature list (the row appended to the TSV accumulators). -/
structure ProjectOutcome where
  missing_ids : List (String × IdsVal)
  names_MDS : List String
  names_DSMS : List String
  unique_list : List String

/-- The tail of `test_project` after the dataset loop: compute the
signature list, shrink `missing_file_list` to its distinct submitter ids,
store them under `not_in_datasets`, store the whole per-dataset Xena-only
dictionary under `not_in_GDC`, and extract the two name lists. -/
def finalize_project (st : LoopState) : ProjectOutcome :=
  let unique_list :=
    if st.missing_file_list.length ≠ 0 then remove_missing_duplicates st.missing_file_list
    else []
  let missing_file_ids := pyListSetStr (st.missing_file_list.map File.submitter_id)
  let m1 := dictSet st.missing_ids "not_in_datasets" (IdsVal.idList missing_file_ids)
  let m2 := dictSet m1 "not_in_GDC" (IdsVal.dict st.missing_ids_GDC)
  { missing_ids := m2,
    names_MDS := st.missing_data_sets.map Data_set.name,
    names_DSMS := st.data_sets_missing_sample.map Data_set.name,
    unique_list := unique_list }

/-- Function `test_project`, its external calls made explicit: `hub` answers the Xena
sample queries, `catalog` is `_XENA_GDC_DTYPE`, `file_list` is the GDC file
listing for the project.  Classify, prune, diff every pruned dataset, and
finalize; a Python exception inside `file_metadata` aborts the project. -/
def test_project_core (hub : String → List String) (catalog : List (String × DtypeSpec))
    (project_id : String) (file_list : List RawFile) : Except PyErr ProjectOutcome :=
  match file_metadata file_list (create_data_set catalog project_id) project_id [] with
  | Except.error e => Except.error e
  | Except.ok r =>
    let data_set_list := prune_data_sets r.1
    Except.ok (finalize_project
      (diff_loop hub project_id data_set_list (init_loop_state data_set_list r.2)))

/-! ## Concrete sample data used by closed witnesses and counterexamples -/

/-- A file record that matches the `star_counts`-style shape below. -/
def exFile : File :=
  { file_id := "f-rna", data_type := "Gene Expression Quantification",
    workflow_type := "STAR - Counts", platform := "",
    experimental_strategy := "RNA-Seq", submitter_id := "TCGA-01A",
    project_id := "TCGA-BRCA" }

/-- A shape `exFile` does not match. -/
def exShapeMiss : Data_set :=
  { name := "mirna", data_type := "miRNA Expression Quantification",
    workflow_type := "", platform := "", experimental_strategy := "",
    project_id := "TCGA-BRCA", files := [] }

/-- A shape `exFile` matches (wildcards everywhere but the data type). -/
def exShapeRNA : Data_set :=
  { name := "star_counts", data_type := "Gene Expression Quantification",
    workflow_type := "", platform := "", experimental_strategy := "",
    project_id := "TCGA-BRCA", files := [] }

/-- A shape with criteria identical to `exShapeRNA`, placed later in the
catalog. -/
def exShapeRNA2 : Data_set :=
  { name := "star_counts_copy", data_type := "Gene Expression Quantification",
    workflow_type := "", platform := "", experimental_strategy := "",
    project_id := "TCGA-BRCA", files := [] }

/-- A BEATAML member whose submitter id ends in `1`. -/
def fileABC1 : File :=
  { file_id := "fa1", data_type := "Masked Somatic Mutation", workflow_type := "",
    platform := "", experimental_strategy := "", submitter_id := "ABC1",
    project_id := "BEATAML1.0-COHORT" }

/-- A BEATAML member whose submitter id ends in `2`. -/
def fileABC2 : File :=
  { file_id := "fa2", data_type := "Masked Somatic Mutation", workflow_type := "",
    platform := "", experimental_strategy := "", submitter_id := "ABC2",
    project_id := "BEATAML1.0-COHORT" }

/-- A BEATAML dataset holding the two members above. -/
def dsBeataml : Data_set :=
  { name := "mutect2", data_type := "Masked Somatic Mutation", workflow_type := "",
    platform := "", experimental_strategy := "", project_id := "BEATAML1.0-COHORT",
    files := [fileABC1, fileABC2] }

/-- A raw record with a kept data type but no `cases` field at all. -/
def rawNoCases : RawFile :=
  { file_id := some "f-nocases", data_type := some "Gene Expression Quantification",
    analysis := none, platform := none, experimental_strategy := none,
    cases := none }

/-- A raw tumor-restricted record whose single sample is non-tumor tissue. -/
def rawNoTumor : RawFile :=
  { file_id := some "f-notumor", data_type := some "Masked Somatic Mutation",
    analysis := none, platform := none, experimental_strategy := none,
    cases := some [{ submitter_id := some "C1",
                     samples := some [{ submitter_id := some "S1",
                                        tissue_type := some "Normal" }] }] }

/-- A well-formed raw record that resolves to submitter id `S1`. -/
def rawEx : RawFile :=
  { file_id := some "f-ok", data_type := some "Gene Expression Quantification",
    analysis := none, platform := none, experimental_strategy := none,
    cases := some [{ submitter_id := some "C1",
                     samples := some [{ submitter_id := some "S1",
                                        tissue_type := some "Tumor" }] }] }

/-- A one-entry shape catalog that `rawEx` matches. -/
def catalogEx : List (String × DtypeSpec) :=
  [("star_counts",
    { data_type := some "Gene Expression Quantification", workflow_type := none,
      platform := none, experimental_strategy := none })]

/-- A hub on which every dataset is absent. -/
def hubEmpty : String → List String := fun _ => []

/-- A hub on which every dataset holds exactly the sample `S1`. -/
def hubOne : String → List String := fun _ => ["S1"]

/-- The `File` that `file_metadata` builds from `rawEx` under `catalogEx` and
project `TCGA-TEST`. -/
def fEx : File :=
  { file_id := "f-ok", data_type := "Gene Expression Quantification",
    workflow_type := "", platform := "", experimental_strategy := "",
    submitter_id := "S1", project_id := "TCGA-TEST" }

/-- The classified `star_counts` dataset of the `rawEx` run. -/
def dsExFull : Data_set :=
  { name := "star_counts", data_type := "Gene Expression Quantification",
    workflow_type := "", platform := "", experimental_strategy := "",
    project_id := "TCGA-TEST", files := [fEx] }

/-! ## Classifier lemmas -/

/-- The `match_count` score reaches 4 exactly when each of the four requirements is the
wildcard or matches case-insensitively. -/
theorem match_count_eq_four (d : Data_set) (g : File) :
    match_count d g = 4 ↔
      ((d.data_type = "" ∨ pyLower d.data_type = pyLower g.data_type) ∧
       (d.workflow_type = "" ∨ pyLower d.workflow_type = pyLower g.workflow_type) ∧
       (d.platform = "" ∨ pyLower d.platform = pyLower g.platform) ∧
       (d.experimental_strategy = "" ∨
         pyLower d.experimental_strategy = pyLower g.experimental_strategy)) := by
  unfold match_count
  by_cases h1 : (d.data_type = "" ∨ pyLower d.data_type = pyLower g.data_type) <;>
  by_cases h2 : (d.workflow_type = "" ∨ pyLower d.workflow_type = pyLower g.workflow_type) <;>
  by_cases h3 : (d.platform = "" ∨ pyLower d.platform = pyLower g.platform) <;>
  by_cases h4 : (d.experimental_strategy = "" ∨
    pyLower d.experimental_strategy = pyLower g.experimental_strategy) <;>
  simp [h1, h2, h3, h4]

/-- Full characterization of `match_to_data_set`: either some first matching
index `i` exists and the file is appended there with the unmatched list kept,
or no dataset matches and the file is appended to the unmatched list with the
datasets kept. -/
theorem mtds_cases (missing_file_list : List File) (data_set_list : List Data_set)
    (file : File) :
    (∃ i, ∃ h : i < data_set_list.length,
        match_count (data_set_list.get ⟨i, h⟩) file = 4 ∧
        (∀ j, ∀ hj : j < i,
          match_count (data_set_list.get ⟨j, Nat.lt_trans hj h⟩) file ≠ 4) ∧
        match_to_data_set missing_file_list data_set_list file
          = (data_set_list.set i (add_file (data_set_list.get ⟨i, h⟩) file),
             missing_file_list))
    ∨ ((∀ d ∈ data_set_list, match_count d file ≠ 4) ∧
        match_to_data_set missing_file_list data_set_list file
          = (data_set_list, missing_file_list ++ [file])) := by
  induction data_set_list with
  | nil => exact Or.inr ⟨by simp, rfl⟩
  | cons d rest ih =>
    by_cases hm : match_count d file = 4
    · refine Or.inl ⟨0, Nat.succ_pos _, hm, ?_, ?_⟩
      · intro j hj; exact absurd hj (Nat.not_lt_zero j)
      · simp [match_to_data_set, hm]
    · rcases ih with ⟨i, h, hmatch, hfirst, heq⟩ | ⟨hall, heq⟩
      · refine Or.inl ⟨i + 1, Nat.succ_lt_succ h, hmatch, ?_, ?_⟩
        · intro j hj
          cases j with
          | zero => exact hm
          | succ k => exact hfirst k (Nat.lt_of_succ_lt_succ hj)
        · simp [match_to_data_set, hm, heq]
      · refine Or.inr ⟨?_, ?_⟩
        · intro d' hd'
          rcases List.mem_cons.mp hd' with h' | h'
          · exact h' ▸ hm
          · exact hall d' h'
        · simp [match_to_data_set, hm, heq]

/-- C1: every normalized file record handed to `match_to_data_set` is routed
to exactly one destination — appended to the files of exactly one dataset
(the unmatched list untouched) or appended to the unmatched list (the
datasets untouched) — never both, never neither, and the unmatched list is
returned in every case. -/
theorem C1_route (missing_file_list : List File) (data_set_list : List Data_set)
    (file : File) :
    Xor'
      (∃ i, ∃ h : i < data_set_list.length,
        match_to_data_set missing_file_list data_set_list file
          = (data_set_list.set i (add_file (data_set_list.get ⟨i, h⟩) file),
             missing_file_list))
      (match_to_data_set missing_file_list data_set_list file
        = (data_set_list, missing_file_list ++ [file])) := by
  rcases mtds_cases missing_file_list data_set_list file with
    ⟨i, h, _, _, heq⟩ | ⟨_, heq⟩
  · refine Or.inl ⟨⟨i, h, heq⟩, ?_⟩
    intro hb
    have h2 := congrArg (fun p => (Prod.snd p).length) (heq.symm.trans hb)
    simp at h2
  · refine Or.inr ⟨heq, ?_⟩
    rintro ⟨i, h, heq2⟩
    have h2 := congrArg (fun p => (Prod.snd p).length) (heq2.symm.trans heq)
    simp at h2

/-- C2: classification is first-match in catalog order — a requirement
matches iff it is the empty-string wildcard or equal case-insensitively, and
the record lands at the earliest dataset whose four requirements all match,
every later dataset (matching or not) left unchanged. -/
theorem C2_first_match (missing_file_list : List File) (data_set_list : List Data_set)
    (file : File) (i : Nat) (h : i < data_set_list.length)
    (hmatch : match_count (data_set_list.get ⟨i, h⟩) file = 4)
    (hfirst : ∀ j, ∀ hj : j < i,
      match_count (data_set_list.get ⟨j, Nat.lt_trans hj h⟩) file ≠ 4) :
    match_to_data_set missing_file_list data_set_list file
      = (data_set_list.set i (add_file (data_set_list.get ⟨i, h⟩) file),
         missing_file_list)
    ∧ ∀ d : Data_set, ∀ g : File, match_count d g = 4 ↔
      ((d.data_type = "" ∨ pyLower d.data_type = pyLower g.data_type) ∧
       (d.workflow_type = "" ∨ pyLower d.workflow_type = pyLower g.workflow_type) ∧
       (d.platform = "" ∨ pyLower d.platform = pyLower g.platform) ∧
       (d.experimental_strategy = "" ∨
         pyLower d.experimental_strategy = pyLower g.experimental_strategy)) := by
  refine ⟨?_, fun d g => match_count_eq_four d g⟩
  rcases mtds_cases missing_file_list data_set_list file with
    ⟨i', h', hmatch', hfirst', heq⟩ | ⟨hall, _⟩
  · have hii : i' = i := by
      rcases Nat.lt_trichotomy i' i with hlt | heqi | hgt
      · exact absurd hmatch' (hfirst i' hlt)
      · exact heqi
      · exact absurd hmatch (hfirst' i hgt)
    subst hii
    exact heq
  · exact absurd hmatch (hall _ (data_set_list.get_mem _ _))

/-! ## Diff-engine lemmas -/

/-- C3: `compare_samples` always returns the two set differences; when the
distinct target and source id counts are equal no count-mismatch flag is
raised and no error is printed; when the target count is strictly smaller
the flag is raised silently; when it is strictly larger the flag is raised
together with the error-level observation. -/
theorem C3_count_mismatch (samples : List String) (data_set : Data_set)
    (project_id : String) :
    ((compare_samples samples data_set project_id).1.2.1
        = (pyListSetStr (source_submitter_ids data_set project_id)).filter
            (fun s => !(pyListSetStr samples).contains s) ∧
     (compare_samples samples data_set project_id).1.2.2
        = (pyListSetStr samples).filter
            (fun s => !(pyListSetStr (source_submitter_ids data_set project_id)).contains s)) ∧
    ((pyListSetStr samples).length
        = (pyListSetStr (source_submitter_ids data_set project_id)).length →
      (compare_samples samples data_set project_id).1.1 = false ∧
      (compare_samples samples data_set project_id).2 = false) ∧
    ((pyListSetStr samples).length
        < (pyListSetStr (source_submitter_ids data_set project_id)).length →
      (compare_samples samples data_set project_id).1.1 = true ∧
      (compare_samples samples data_set project_id).2 = false) ∧
    ((pyListSetStr (source_submitter_ids data_set project_id)).length
        < (pyListSetStr samples).length →
      (compare_samples samples data_set project_id).1.1 = true ∧
      (compare_samples samples data_set project_id).2 = true) := by
  simp only [compare_samples]
  split_ifs with h1 h2
  · exact ⟨⟨rfl, rfl⟩, fun _ => ⟨rfl, rfl⟩, fun hlt => absurd h1 (by omega),
      fun hgt => absurd h1 (by omega)⟩
  · exact ⟨⟨rfl, rfl⟩, fun heq => absurd heq h1, fun _ => ⟨rfl, rfl⟩,
      fun hgt => absurd hgt (by omega)⟩
  · exact ⟨⟨rfl, rfl⟩, fun heq => absurd heq h1, fun hlt => absurd hlt h2,
      fun _ => ⟨rfl, rfl⟩⟩

/-- C4: `compare_datasets` flags a dataset missing exactly when the hub
returned no samples, folding all its member files into the unmatched pool;
otherwise the flag is false and the pool is unchanged. -/
theorem C4_existence_check (samples : List String) (missing_file_list : List File)
    (data_set : Data_set) :
    (samples = [] → compare_datasets samples missing_file_list data_set
        = (true, missing_file_list ++ data_set.files)) ∧
    (samples ≠ [] → compare_datasets samples missing_file_list data_set
        = (false, missing_file_list)) := by
  constructor <;> intro h
  · simp [compare_datasets, h]
  · simp [compare_datasets, List.length_eq_zero, h]

/-- C6: for project `BEATAML1.0-COHORT`, and only for it, `compare_samples`
drops the trailing character of every member submitter id before building
the source id set: the source ids are the `dropRight 1` images, any other
project uses the identifiers unmodified, and comparing under
`BEATAML1.0-COHORT` is the same as comparing the pre-stripped dataset under
any other project. -/
theorem C6_beataml_strip (data_set : Data_set) (samples : List String)
    (project_id : String) (h : project_id ≠ "BEATAML1.0-COHORT") :
    source_submitter_ids data_set "BEATAML1.0-COHORT"
        = data_set.files.map (fun file => file.submitter_id.dropRight 1) ∧
    source_submitter_ids data_set project_id
        = data_set.files.map (fun file => file.submitter_id) ∧
    compare_samples samples data_set "BEATAML1.0-COHORT"
      = compare_samples samples (strip_last_ids data_set) project_id := by
  have hsrc : source_submitter_ids data_set "BEATAML1.0-COHORT"
      = source_submitter_ids (strip_last_ids data_set) project_id := by
    simp [source_submitter_ids, strip_last_ids, h]
  refine ⟨by simp [source_submitter_ids], by simp [source_submitter_ids, h], ?_⟩
  simp only [compare_samples]
  rw [hsrc]

/-- Witness for C2: with two shapes of identical criteria after a
non-matching one, the record goes to the earlier of the two matching shapes
and the later twin is ignored. -/
theorem C2_first_match_witness :
    match_to_data_set [] [exShapeMiss, exShapeRNA, exShapeRNA2] exFile
      = ([exShapeMiss, add_file exShapeRNA exFile, exShapeRNA2], [])
    ∧ ∀ d : Data_set, ∀ g : File, match_count d g = 4 ↔
      ((d.data_type = "" ∨ pyLower d.data_type = pyLower g.data_type) ∧
       (d.workflow_type = "" ∨ pyLower d.workflow_type = pyLower g.workflow_type) ∧
       (d.platform = "" ∨ pyLower d.platform = pyLower g.platform) ∧
       (d.experimental_strategy = "" ∨
         pyLower d.experimental_strategy = pyLower g.experimental_strategy)) :=
  C2_first_match [] [exShapeMiss, exShapeRNA, exShapeRNA2] exFile 1 (by decide)
    (by decide)
    (fun j hj => by
      have hj0 : j = 0 := by omega
      subst hj0
      exact (by decide : match_count exShapeMiss exFile ≠ 4))

/-! ## Deduplication lemmas -/

/-- The `pySetList` output is pairwise inequivalent. -/
theorem pySetList_pairwise (eqv : α → α → Bool) (l : List α) :
    List.Pairwise (fun a b => eqv a b = false) (pySetList eqv l) := by
  induction l with
  | nil => exact List.Pairwise.nil
  | cons x rest ih =>
    rw [pySetList]
    refine List.pairwise_cons.mpr ⟨?_, ih.filter _⟩
    intro y hy
    simpa using List.of_mem_filter hy

/-- The function `pySetList` does not change a pairwise-inequivalent list. -/
theorem pySetList_of_pairwise (eqv : α → α → Bool) (l : List α)
    (h : List.Pairwise (fun a b => eqv a b = false) l) : pySetList eqv l = l := by
  induction l with
  | nil => rfl
  | cons x rest ih =>
    rcases List.pairwise_cons.mp h with ⟨hx, hrest⟩
    rw [pySetList, ih hrest, List.filter_eq_self.mpr]
    intro a ha
    simpa using hx a ha

/-- The set-deduplication model is idempotent. -/
theorem pySetList_idem (eqv : α → α → Bool) (l : List α) :
    pySetList eqv (pySetList eqv l) = pySetList eqv l :=
  pySetList_of_pairwise eqv _ (pySetList_pairwise eqv l)

/-- The distinct-strings list carries no duplicates. -/
theorem pyListSetStr_nodup (l : List String) : (pyListSetStr l).Nodup :=
  (pySetList_pairwise _ l).imp (fun h => of_decide_eq_false h)

/-- Counterexample for C8: `remove_missing_duplicates` maps `File` records to
signature strings, so applying it a second time to its own output runs the
attribute access `unique_list[i].data_type` on a `str` and raises
`AttributeError` instead of returning the same list. -/
theorem C8_counterexample :
    remove_missing_duplicates [exFile]
        = ["Gene Expression Quantification/STAR - Counts/RNA-Seq"] ∧
    remove_missing_duplicates_on_strings (remove_missing_duplicates [exFile])
        = Except.error (PyErr.attributeError "data_type") ∧
    remove_missing_duplicates_on_strings (remove_missing_duplicates [exFile])
        ≠ Except.ok (remove_missing_duplicates [exFile]) :=
  ⟨rfl, rfl, fun h => Except.noConfusion h⟩

/-- C8 amended: the deduplication underlying `remove_missing_duplicates` is
idempotent at the file level — deduplicating the unmatched list again before
projecting to signatures changes nothing. -/
theorem C8_signature_dedup_idempotent (missing_file_list : List File) :
    remove_missing_duplicates (pyListSet missing_file_list)
      = remove_missing_duplicates missing_file_list := by
  unfold remove_missing_duplicates pyListSet
  rw [pySetList_idem]

/-! ## Normalizer lemmas -/

/-- Counterexample for C5: a raw record whose kept data type forces the
sample lookup but which has no `cases` field makes `file_metadata` raise
`KeyError`, not discard the record. -/
theorem C5_counterexample :
    file_metadata [rawNoCases] (create_data_set catalogEx "TCGA-TEST") "TCGA-TEST" []
      = Except.error (PyErr.keyError "cases") := rfl

/-- C5 amended: a raw record whose resolution *succeeds* with the empty
identifier (for example a tumor-restricted record whose sample list has no
`Tumor` entry) is discarded — the loop state is returned unchanged and no
exception is raised; but resolution itself may raise (see the
counterexample) when the `cases` structure is absent. -/
theorem C5_empty_id_discard (file : RawFile) (data_set_list : List Data_set)
    (project_id : String) (missing_file_list : List File) (fid wt : String)
    (hid : file.file_id = some fid)
    (hwt : extract_workflow_type file = Except.ok wt)
    (hres : resolve_submitter_id file project_id (file.data_type.getD "") wt
        (file.experimental_strategy.getD "") = Except.ok "") :
    file_metadata_step file data_set_list project_id missing_file_list
      = Except.ok (data_set_list, missing_file_list)
    ∧ ∀ samples0 : List RawSample,
        (∀ s ∈ samples0, ∃ t, s.tissue_type = some t ∧ t ≠ "Tumor") →
        tumor_scan_samples samples0 = Except.ok "" := by
  constructor
  · unfold file_metadata_step
    rw [hid, hwt]
    dsimp only
    rw [hres]
    rfl
  · intro samples0
    induction samples0 with
    | nil => intro _; rfl
    | cons s rest ih =>
      intro hs
      obtain ⟨t, ht, htn⟩ := hs s (List.mem_cons_self s rest)
      rw [tumor_scan_samples, ht]
      simp only [if_neg htn]
      exact ih (fun s' hs' => hs s' (List.mem_cons_of_mem s hs'))

/-- Witness for C5 (amended): the concrete tumor-restricted record with a
single `Normal`-tissue sample is discarded without an exception. -/
theorem C5_empty_id_discard_witness :
    file_metadata_step rawNoTumor [exShapeRNA] "TCGA-BRCA" []
      = Except.ok ([exShapeRNA], [])
    ∧ ∀ samples0 : List RawSample,
        (∀ s ∈ samples0, ∃ t, s.tissue_type = some t ∧ t ≠ "Tumor") →
        tumor_scan_samples samples0 = Except.ok "" :=
  C5_empty_id_discard rawNoTumor [exShapeRNA] "TCGA-BRCA" [] "f-notumor" "" rfl rfl rfl

/-- Witness for C6: under `BEATAML1.0-COHORT` the member ids `ABC1` and
`ABC2` both normalize to `ABC` before the set comparison. -/
theorem C6_beataml_strip_witness :
    source_submitter_ids dsBeataml "BEATAML1.0-COHORT" = ["ABC", "ABC"] :=
  (C6_beataml_strip dsBeataml ["ABC"] "TCGA-BRCA" (by decide)).1.trans (by decide)

/-! ## Project-id provenance -/

/-- The classifier `match_to_data_set` preserves the per-position project ids of the
dataset list. -/
theorem mtds_map_project_id (missing_file_list : List File)
    (data_set_list : List Data_set) (file : File) :
    (match_to_data_set missing_file_list data_set_list file).1.map Data_set.project_id
      = data_set_list.map Data_set.project_id := by
  induction data_set_list with
  | nil => rfl
  | cons d rest ih =>
    by_cases hm : match_count d file = 4 <;>
      simp [match_to_data_set, hm, add_file, ih]

/-- Any file inside the datasets returned by `match_to_data_set` was already
there or is the routed file. -/
theorem mtds_files_provenance (missing_file_list : List File) (file : File) :
    ∀ data_set_list : List Data_set,
      ∀ d' ∈ (match_to_data_set missing_file_list data_set_list file).1,
      ∀ f ∈ d'.files, (∃ d0 ∈ data_set_list, f ∈ d0.files) ∨ f = file := by
  intro data_set_list
  induction data_set_list with
  | nil =>
    intro d' hd'
    simp [match_to_data_set] at hd'
  | cons d rest ih =>
    intro d' hd' f hf
    by_cases hm : match_count d file = 4
    · simp only [match_to_data_set, if_pos hm] at hd'
      rcases List.mem_cons.mp hd' with rfl | hmem
      · simp only [add_file] at hf
        rcases List.mem_append.mp hf with hl | hr
        · exact Or.inl ⟨d, List.mem_cons_self d rest, hl⟩
        · exact Or.inr (List.mem_singleton.mp hr)
      · exact Or.inl ⟨d', List.mem_cons_of_mem d hmem, hf⟩
    · simp only [match_to_data_set, if_neg hm] at hd'
      rcases List.mem_cons.mp hd' with rfl | hmem
      · exact Or.inl ⟨d', List.mem_cons_self _ rest, hf⟩
      · rcases ih d' hmem f hf with ⟨d0, h0, hf0⟩ | hfe
        · exact Or.inl ⟨d0, List.mem_cons_of_mem d h0, hf0⟩
        · exact Or.inr hfe

/-- Any file in the unmatched list returned by `match_to_data_set` was
already there or is the routed file. -/
theorem mtds_missing_provenance (missing_file_list : List File)
    (data_set_list : List Data_set) (file f : File)
    (hf : f ∈ (match_to_data_set missing_file_list data_set_list file).2) :
    f ∈ missing_file_list ∨ f = file := by
  rcases mtds_cases missing_file_list data_set_list file with
    ⟨i, h, _, _, heq⟩ | ⟨_, heq⟩
  · rw [heq] at hf
    exact Or.inl hf
  · rw [heq] at hf
    rcases List.mem_append.mp hf with h1 | h2
    · exact Or.inl h1
    · exact Or.inr (List.mem_singleton.mp h2)

/-- One `file_metadata` iteration: the head project id is preserved, and
every new file — unmatched or classified — carries the head dataset's
project id. -/
theorem file_metadata_step_provenance (file : RawFile) (data_set_list : List Data_set)
    (project_id p : String) (missing_file_list : List File)
    (r : List Data_set × List File)
    (hh : (data_set_list.map Data_set.project_id).head? = some p)
    (hstep : file_metadata_step file data_set_list project_id missing_file_list
        = Except.ok r) :
    (r.1.map Data_set.project_id).head? = some p ∧
    (∀ f ∈ r.2, f ∈ missing_file_list ∨ f.project_id = p) ∧
    (∀ d' ∈ r.1, ∀ f ∈ d'.files,
      (∃ d0 ∈ data_set_list, f ∈ d0.files) ∨ f.project_id = p) := by
  unfold file_metadata_step at hstep
  cases hfid : file.file_id with
  | none =>
    rw [hfid] at hstep
    exact Except.noConfusion hstep
  | some fid =>
    rw [hfid] at hstep
    cases hwt : extract_workflow_type file with
    | error e =>
      rw [hwt] at hstep
      exact Except.noConfusion hstep
    | ok wt =>
      rw [hwt] at hstep
      dsimp only at hstep
      cases hres : resolve_submitter_id file project_id (file.data_type.getD "") wt
          (file.experimental_strategy.getD "") with
      | error e =>
        rw [hres] at hstep
        exact Except.noConfusion hstep
      | ok sid =>
        rw [hres] at hstep
        dsimp only at hstep
        by_cases hlen : sid.length > 0
        · rw [if_pos hlen] at hstep
          cases data_set_list with
          | nil => exact Except.noConfusion hstep
          | cons d0 rest =>
            have hp : d0.project_id = p := by simpa using hh
            have hr : match_to_data_set missing_file_list (d0 :: rest)
                { file_id := fid, data_type := file.data_type.getD "",
                  workflow_type := wt, platform := file.platform.getD "",
                  experimental_strategy := file.experimental_strategy.getD "",
                  submitter_id := sid, project_id := d0.project_id } = r :=
              Except.ok.inj hstep
            subst hr
            refine ⟨?_, ?_, ?_⟩
            · rw [mtds_map_project_id]
              exact hh
            · intro f hf
              rcases mtds_missing_provenance _ _ _ f hf with h1 | h2
              · exact Or.inl h1
              · right
                rw [h2]
                exact hp
            · intro d' hd' f hf
              rcases mtds_files_provenance _ _ (d0 :: rest) d' hd' f hf with h1 | h2
              · exact Or.inl h1
              · right
                rw [h2]
                exact hp
        · rw [if_neg hlen] at hstep
          have hr : (data_set_list, missing_file_list) = r := Except.ok.inj hstep
          subst hr
          exact ⟨hh, fun f hf => Or.inl hf, fun d' hd' f hf => Or.inl ⟨d', hd', hf⟩⟩

/-- Over a whole `file_metadata` run, every file that was not already present
carries the project id of the catalog's first dataset. -/
theorem file_metadata_provenance (project_id p : String) :
    ∀ (file_list : List RawFile) (data_set_list : List Data_set)
      (missing_file_list : List File) (ds' : List Data_set) (mfl' : List File),
      (data_set_list.map Data_set.project_id).head? = some p →
      file_metadata file_list data_set_list project_id missing_file_list
        = Except.ok (ds', mfl') →
      (∀ f ∈ mfl', f ∈ missing_file_list ∨ f.project_id = p) ∧
      (∀ d' ∈ ds', ∀ f ∈ d'.files,
        (∃ d0 ∈ data_set_list, f ∈ d0.files) ∨ f.project_id = p) := by
  intro file_list
  induction file_list with
  | nil =>
    intro ds mfl ds' mfl' hh heq
    have hpair : (ds, mfl) = (ds', mfl') := Except.ok.inj heq
    have hds : ds = ds' := congrArg Prod.fst hpair
    have hmfl : mfl = mfl' := congrArg Prod.snd hpair
    subst hds hmfl
    exact ⟨fun f hf => Or.inl hf, fun d' hd' f hf => Or.inl ⟨d', hd', hf⟩⟩
  | cons file rest ih =>
    intro ds mfl ds' mfl' hh heq
    rw [file_metadata] at heq
    cases hstep : file_metadata_step file ds project_id mfl with
    | error e =>
      rw [hstep] at heq
      exact Except.noConfusion heq
    | ok r =>
      rw [hstep] at heq
      have heq2 : file_metadata rest r.1 project_id r.2 = Except.ok (ds', mfl') := heq
      obtain ⟨hh2, hmissp, hdsp⟩ :=
        file_metadata_step_provenance file ds project_id p mfl r hh hstep
      obtain ⟨hm, hd⟩ := ih r.1 r.2 ds' mfl' hh2 heq2
      constructor
      · intro f hf
        rcases hm f hf with h1 | h2
        · exact hmissp f h1
        · exact Or.inr h2
      · intro d' hd' f hf
        rcases hd d' hd' f hf with ⟨d0, h0, hf0⟩ | h2
        · exact hdsp d0 h0 f hf0
        · exact Or.inr h2

/-- C10: the project id stored in every `File` built by `file_metadata` is
`data_set_list[0].project_id`, not the `project_id` parameter; with an empty
catalog a record resolving to a non-empty submitter id raises an uncaught
`IndexError`. -/
theorem C10_project_id_source :
    (∀ (file_list : List RawFile) (d : Data_set) (rest : List Data_set)
       (project_id : String) (missing_file_list : List File)
       (ds' : List Data_set) (mfl' : List File),
       file_metadata file_list (d :: rest) project_id missing_file_list
         = Except.ok (ds', mfl') →
       (∀ f ∈ mfl', f ∈ missing_file_list ∨ f.project_id = d.project_id) ∧
       (∀ d' ∈ ds', ∀ f ∈ d'.files,
         (∃ d0 ∈ d :: rest, f ∈ d0.files) ∨ f.project_id = d.project_id))
    ∧ file_metadata [rawEx] [] "TCGA-BRCA" [] = Except.error PyErr.indexError
    ∧ (∀ (file : RawFile) (project_id : String) (missing_file_list : List File)
        (fid wt sid : String),
        file.file_id = some fid →
        extract_workflow_type file = Except.ok wt →
        resolve_submitter_id file project_id (file.data_type.getD "") wt
          (file.experimental_strategy.getD "") = Except.ok sid →
        sid.length > 0 →
        file_metadata_step file [] project_id missing_file_list
          = Except.error PyErr.indexError) := by
  refine ⟨?_, rfl, ?_⟩
  · intro fl d rest pid mfl ds' mfl' heq
    exact file_metadata_provenance pid d.project_id fl (d :: rest) mfl ds' mfl'
      (by simp) heq
  · intro file pid mfl fid wt sid hid hwt hres hlen
    unfold file_metadata_step
    rw [hid]
    dsimp only
    rw [hwt]
    dsimp only
    rw [hres]
    dsimp only
    rw [if_pos hlen]

/-! ## Report-aggregation lemmas -/

/-- Looking up the key just assigned returns the assigned value. -/
theorem dictGet_dictSet_self (m : List (String × α)) (key : String) (v : α) :
    dictGet (dictSet m key v) key = some v := by
  induction m with
  | nil => simp [dictSet, dictGet]
  | cons kv rest ih =>
    by_cases h : kv.1 = key
    · simp [dictSet, dictGet, h]
    · simp [dictSet, dictGet, h, ih]

/-- Assigning one key leaves every other key's lookup unchanged. -/
theorem dictGet_dictSet_ne (m : List (String × α)) (key key2 : String) (v : α)
    (h : key2 ≠ key) : dictGet (dictSet m key v) key2 = dictGet m key2 := by
  induction m with
  | nil => simp [dictSet, dictGet, Ne.symm h]
  | cons kv rest ih =>
    by_cases hk : kv.1 = key
    · simp [dictSet, dictGet, hk, Ne.symm h]
    · simp [dictSet, dictGet, hk, ih]

/-- C7 amended: every finalized per-project mapping stores the project-wide
deduplicated unmatched submitter ids under the reserved key
`not_in_datasets` and the per-dataset target-only id dictionary under the
reserved key `not_in_GDC` (the source uses `not_in_GDC`, not
`not_in_target`), and every successful `test_project_core` run produces such
a finalized mapping. -/
theorem C7_reserved_keys (st : LoopState) :
    dictGet (finalize_project st).missing_ids "not_in_datasets"
      = some (IdsVal.idList
          (pyListSetStr (st.missing_file_list.map File.submitter_id))) ∧
    dictGet (finalize_project st).missing_ids "not_in_GDC"
      = some (IdsVal.dict st.missing_ids_GDC) ∧
    (pyListSetStr (st.missing_file_list.map File.submitter_id)).Nodup ∧
    ∀ (hub : String → List String) (catalog : List (String × DtypeSpec))
      (project_id : String) (file_list : List RawFile) (out : ProjectOutcome),
      test_project_core hub catalog project_id file_list = Except.ok out →
      ∃ st2 : LoopState, out = finalize_project st2 := by
  refine ⟨?_, ?_, pyListSetStr_nodup _, ?_⟩
  · unfold finalize_project
    dsimp only
    rw [dictGet_dictSet_ne _ _ _ _ (by decide), dictGet_dictSet_self]
  · unfold finalize_project
    dsimp only
    rw [dictGet_dictSet_self]
  · intro hub catalog pid fl out heq
    unfold test_project_core at heq
    cases hmeta : file_metadata fl (create_data_set catalog pid) pid [] with
    | error e =>
      rw [hmeta] at heq
      exact Except.noConfusion heq
    | ok r =>
      rw [hmeta] at heq
      exact ⟨_, (Except.ok.inj heq).symm⟩

/-- Counterexample for C7: a concrete finalized mapping holds no
`not_in_target` key; the per-dataset target-only ids sit under
`not_in_GDC`. -/
theorem C7_counterexample :
    test_project_core hubOne catalogEx "TCGA-TEST" [rawEx]
      = Except.ok
          { missing_ids := [("star_counts", IdsVal.idList []),
                            ("not_in_datasets", IdsVal.idList []),
                            ("not_in_GDC", IdsVal.dict
                              [("star_counts", IdsVal.idList [])])],
            names_MDS := [], names_DSMS := [], unique_list := [] } ∧
    dictGet [("star_counts", IdsVal.idList []),
             ("not_in_datasets", IdsVal.idList []),
             ("not_in_GDC", IdsVal.dict [("star_counts", IdsVal.idList [])])]
        "not_in_target"
      = none :=
  ⟨rfl, rfl⟩

/-! ## Dataset-loop lemmas -/

/-- The dedup model of a non-empty list is non-empty. -/
theorem pySetList_ne_nil (eqv : α → α → Bool) (l : List α) (h : l ≠ []) :
    pySetList eqv l ≠ [] := by
  cases l with
  | nil => exact absurd rfl h
  | cons x xs => simp [pySetList]

/-- When the hub returns no samples for a dataset that has members,
`compare_samples` raises the count-mismatch flag. -/
theorem compare_samples_empty_hub_flag (data_set : Data_set) (project_id : String)
    (hne : data_set.files ≠ []) :
    ((compare_samples [] data_set project_id).1).1 = true := by
  have hsrc : source_submitter_ids data_set project_id ≠ [] := by
    unfold source_submitter_ids
    split <;> simpa using hne
  have hlen : 0 < (pyListSetStr (source_submitter_ids data_set project_id)).length :=
    List.length_pos.mpr (pySetList_ne_nil _ _ hsrc)
  unfold compare_samples
  dsimp only
  rw [if_neg, if_pos]
  · exact hlen
  · exact Nat.ne_of_lt hlen

/-- One loop step never removes a dataset from either report list. -/
theorem diff_step_mono (hub : String → List String) (project_id : String)
    (st : LoopState) (x d : Data_set) :
    (d ∈ st.missing_data_sets →
      d ∈ (diff_step hub project_id st x).missing_data_sets) ∧
    (d ∈ st.data_sets_missing_sample →
      d ∈ (diff_step hub project_id st x).data_sets_missing_sample) := by
  unfold diff_step
  dsimp only
  constructor <;> intro h <;> split
  · exact List.mem_append_left _ h
  · exact h
  · exact List.mem_append_left _ h
  · exact h

/-- The loop never removes a dataset from either report list. -/
theorem diff_loop_mono (hub : String → List String) (project_id : String) :
    ∀ (l : List Data_set) (st : LoopState) (d : Data_set),
      (d ∈ st.missing_data_sets →
        d ∈ (diff_loop hub project_id l st).missing_data_sets) ∧
      (d ∈ st.data_sets_missing_sample →
        d ∈ (diff_loop hub project_id l st).data_sets_missing_sample) := by
  intro l
  induction l with
  | nil => intro st d; exact ⟨id, id⟩
  | cons x rest ih =>
    intro st d
    constructor <;> intro h
    · exact (ih (diff_step hub project_id st x) d).1
        ((diff_step_mono hub project_id st x d).1 h)
    · exact (ih (diff_step hub project_id st x) d).2
        ((diff_step_mono hub project_id st x d).2 h)

/-- A member of the processed list with files but an empty hub reply ends up
in both report lists. -/
theorem diff_loop_flags (hub : String → List String) (project_id : String) :
    ∀ (l : List Data_set) (st : LoopState) (d : Data_set),
      d ∈ l → d.files ≠ [] → xena_dataset hub d = [] →
      d ∈ (diff_loop hub project_id l st).missing_data_sets ∧
      d ∈ (diff_loop hub project_id l st).data_sets_missing_sample := by
  intro l
  induction l with
  | nil =>
    intro st d hd
    cases hd
  | cons x rest ih =>
    intro st d hd hne hq
    rcases List.mem_cons.mp hd with rfl | hmem
    · have hflag : ((compare_samples (xena_dataset hub d) d project_id).1).1 = true := by
        rw [hq]
        exact compare_samples_empty_hub_flag d project_id hne
      have hcd : (compare_datasets (xena_dataset hub d) st.missing_file_list d).1 = true := by
        rw [hq]
        rfl
      have h1 : d ∈ (diff_step hub project_id st d).missing_data_sets := by
        unfold diff_step
        dsimp only
        rw [hcd]
        simp only [if_pos]
        exact List.mem_append_right _ (List.mem_singleton_self d)
      have h2 : d ∈ (diff_step hub project_id st d).data_sets_missing_sample := by
        unfold diff_step
        dsimp only
        rw [hflag]
        simp only [if_pos]
        exact List.mem_append_right _ (List.mem_singleton_self d)
      exact ⟨(diff_loop_mono hub project_id rest (diff_step hub project_id st d) d).1 h1,
             (diff_loop_mono hub project_id rest (diff_step hub project_id st d) d).2 h2⟩
    · exact ih (diff_step hub project_id st x) d hmem hne hq

/-- C9: a pruned (hence non-empty) dataset for which the hub returns no
samples is reported both as a missing dataset and as a dataset with wrong
sample count. -/
theorem C9_missing_dataset_both_flags (hub : String → List String)
    (catalog : List (String × DtypeSpec)) (project_id : String)
    (file_list : List RawFile) (ds0 : List Data_set) (mfl0 : List File)
    (d : Data_set)
    (hmeta : file_metadata file_list (create_data_set catalog project_id)
        project_id [] = Except.ok (ds0, mfl0))
    (hd : d ∈ prune_data_sets ds0)
    (hq : xena_dataset hub d = []) :
    ∃ out : ProjectOutcome,
      test_project_core hub catalog project_id file_list = Except.ok out ∧
      d.name ∈ out.names_MDS ∧ d.name ∈ out.names_DSMS := by
  have hne : d.files ≠ [] := by
    have hmem := List.of_mem_filter hd
    intro hnil
    rw [hnil] at hmem
    simp at hmem
  unfold test_project_core
  rw [hmeta]
  dsimp only
  obtain ⟨hm1, hm2⟩ := diff_loop_flags hub project_id (prune_data_sets ds0)
    (init_loop_state (prune_data_sets ds0) mfl0) d hd hne hq
  exact ⟨_, rfl, List.mem_map.mpr ⟨d, hm1, rfl⟩, List.mem_map.mpr ⟨d, hm2, rfl⟩⟩

/-- Witness for C9: the concrete one-dataset project against the empty hub
reports `star_counts` in both lists. -/
theorem C9_missing_dataset_both_flags_witness :
    ∃ out : ProjectOutcome,
      test_project_core hubEmpty catalogEx "TCGA-TEST" [rawEx] = Except.ok out ∧
      dsExFull.name ∈ out.names_MDS ∧ dsExFull.name ∈ out.names_DSMS :=
  C9_missing_dataset_both_flags hubEmpty catalogEx "TCGA-TEST" [rawEx]
    [dsExFull] [] dsExFull rfl (by decide) rfl

end DMD
